import Mathlib

/-!
Verification development for a small Flask image-scraping service
(`src/app.py`).  The service exposes `GET /images?url=...`, fetches the
page HTML through the Firecrawl scrape service, extracts image URLs from
the HTML with BeautifulSoup-based scanning, and annotates up to two
images with an OpenAI vision call.

The embedding below translates the Python source:
  * `extract_image_urls_from_html` (app.py lines 42-74) over a parsed
    element list; the HTML parsing itself is performed by the third-party
    `BeautifulSoup(html, "html.parser")` library, which we model as a
    tokenizer `parseHtml` producing the start-tag elements in document
    order with their attributes.
  * `fetch_images_from_url` (lines 76-125) with the HTTP response as an
    explicit value.
  * `describe_image_with_openai` (lines 128-156) with the remote vision
    call as an oracle `String → Except String String` (`.error` models a
    raised exception).
  * the `get_images` route handler (lines 158-174).
-/

/-- Python whitespace as used by `str.strip()`: space, tab, newline,
carriage return, vertical tab, form feed. -/
def pyIsSpace (c : Char) : Bool :=
  c = ' ' || c = '\t' || c = '\n' || c = '\r' || c = '\x0b' || c = '\x0c'

/-- Drop the characters satisfying `p` from both ends of a character list
(the semantics of Python `str.strip(chars)`). -/
def stripEnds (p : Char → Bool) (cs : List Char) : List Char :=
  ((cs.dropWhile p).reverse.dropWhile p).reverse

/-- Python `s.strip()` on the character-list representation. -/
def pyStripL (cs : List Char) : List Char :=
  stripEnds pyIsSpace cs

/-- Python `s.strip('\x27"')`: remove single and double quotes from both
ends, as done on each regex match in the style scan (app.py line 64). -/
def stripQuotesL (cs : List Char) : List Char :=
  stripEnds (fun c => c = '"' || c = '\x27') cs

/-- Python `s.split(sep)` for a one-character separator: keeps empty
pieces, and splitting the empty string yields one empty piece. -/
def splitChar (sep : Char) : List Char → List (List Char)
  | [] => [[]]
  | c :: cs =>
    match splitChar sep cs with
    | [] => if c = sep then [[], []] else [[c]]
    | h :: t => if c = sep then [] :: h :: t else (c :: h) :: t

/-- One srcset entry (app.py line 57): `src.strip().split(' ')[0]` —
strip Python whitespace, then take the prefix before the first SPACE
character (only U+0020 separates; tabs and newlines do not). -/
def srcsetEntryUrl (cs : List Char) : String :=
  String.mk ((pyStripL cs).takeWhile (fun c => c != ' '))

/-- The URLs contributed by one srcset attribute value (app.py lines
56-58): split on commas, one URL per entry. -/
def srcsetUrls (s : String) : List String :=
  (splitChar ',' s.data).map srcsetEntryUrl

/-- Scan forward after a `url(` opener for the matching `)`.  Mirrors the
non-greedy group of the Python regex `url\((.*?)\)`: `.` does not match a
newline, so the match fails if a newline (or the end of the string)
arrives before `)`. -/
def grabParen : List Char → Option (List Char × List Char)
  | [] => none
  | c :: cs =>
    if c = ')' then some ([], cs)
    else if c = '\n' then none
    else
      match grabParen cs with
      | some (content, rest) => some (c :: content, rest)
      | none => none

/-- All matches of the Python regex `url\((.*?)\)` over a style string
(`re.findall`, app.py line 62): left-to-right, non-overlapping; on a
failed attempt the scan restarts one character later. -/
def findUrlAux : Nat → List Char → List (List Char)
  | 0, _ => []
  | _, [] => []
  | fuel + 1, c :: cs =>
    if c = 'u' then
      match cs with
      | 'r' :: 'l' :: '(' :: cs2 =>
        match grabParen cs2 with
        | some (content, rest) => content :: findUrlAux fuel rest
        | none => findUrlAux fuel cs
      | _ => findUrlAux fuel cs
    else findUrlAux fuel cs

/-- The URLs contributed by one inline style attribute (app.py lines
62-65): each `url(...)` match with enclosing quotes stripped. -/
def cssUrls (style : String) : List String :=
  (findUrlAux (style.data.length + 1) style.data).map
    (fun m => String.mk (stripQuotesL m))

/-- One attribute of a parsed HTML start tag. -/
structure Attr where
  key : String
  value : String

/-- One parsed HTML start tag: lower-cased tag name and its attributes.
`find_all` walks the whole tree, so nesting is irrelevant and a flat list
of start tags in document order carries all the data the extractor
reads. -/
structure Element where
  tag : String
  attrs : List Attr

/-- Attribute lookup, the model of BeautifulSoup `tag.get(name)`:
`none` when the attribute is absent. -/
def Element.getAttr (e : Element) (k : String) : Option String :=
  (e.attrs.find? (fun a => a.key == k)).map (fun a => a.value)

/-- Python `img.get('src') or img.get('data-src')` (app.py line 48): the
`or` falls through when `src` is missing or the empty string. -/
def imgChosenSrc (e : Element) : Option String :=
  match e.getAttr "src" with
  | some s => if s = "" then e.getAttr "data-src" else some s
  | none => e.getAttr "data-src"

/-- `image_urls.add(u)` on the model of the Python set: the accumulator
is the list of distinct URLs in first-insertion order. -/
def addUrl (acc : List String) (u : String) : List String :=
  if u ∈ acc then acc else acc ++ [u]

/-- Body of the first loop of `extract_image_urls_from_html` (app.py
lines 47-50): an `<img>` tag contributes `src`, else `data-src`, when
truthy. -/
def imgStep (acc : List String) (e : Element) : List String :=
  if e.tag = "img" then
    match imgChosenSrc e with
    | some s => if s = "" then acc else addUrl acc s
    | none => acc
  else acc

/-- First loop of `extract_image_urls_from_html` over the document. -/
def imgPhase (elems : List Element) (acc : List String) : List String :=
  elems.foldl imgStep acc

/-- Body of the second loop (app.py lines 53-58):
`<source srcset="...">`. -/
def sourceStep (acc : List String) (e : Element) : List String :=
  if e.tag = "source" then
    match e.getAttr "srcset" with
    | some ss => if ss = "" then acc else (srcsetUrls ss).foldl addUrl acc
    | none => acc
  else acc

/-- Second loop of `extract_image_urls_from_html` over the document. -/
def sourcePhase (elems : List Element) (acc : List String) : List String :=
  elems.foldl sourceStep acc

/-- Body of the third loop (app.py lines 61-65): every element carrying
a style attribute contributes each `url(...)` occurrence. -/
def styleStep (acc : List String) (e : Element) : List String :=
  match e.getAttr "style" with
  | some st => (cssUrls st).foldl addUrl acc
  | none => acc

/-- Third loop of `extract_image_urls_from_html` over the document. -/
def stylePhase (elems : List Element) (acc : List String) : List String :=
  elems.foldl styleStep acc

/-- Body of the fourth loop (app.py lines 68-71):
`<meta property="og:image">` contributes its `content` attribute when
truthy. -/
def metaStep (acc : List String) (e : Element) : List String :=
  if e.tag = "meta" ∧ e.getAttr "property" = some "og:image" then
    match e.getAttr "content" with
    | some c => if c = "" then acc else addUrl acc c
    | none => acc
  else acc

/-- Fourth loop of `extract_image_urls_from_html` over the document. -/
def metaPhase (elems : List Element) (acc : List String) : List String :=
  elems.foldl metaStep acc

/-- `extract_image_urls_from_html` over an already-parsed element list:
the four scanning loops of app.py lines 42-74 run in order over one
accumulating set. -/
def extractFromElements (elems : List Element) : List String :=
  metaPhase elems (stylePhase elems (sourcePhase elems (imgPhase elems [])))

/-- Characters allowed in a tag or attribute name by the `html.parser`
tokenizer (letters, digits, hyphen, underscore, colon, period). -/
def isNameChar (c : Char) : Bool :=
  c.isAlphanum || c = '-' || c = '_' || c = ':' || c = '.'

/-- Lower-case a character list into a string (`html.parser` lower-cases
tag and attribute names). -/
def lowerStr (cs : List Char) : String :=
  String.mk (cs.map Char.toLower)

/-- Insert an attribute parsed from a start tag.  BeautifulSoup keeps a
dict of attributes, so a duplicate attribute name replaces the earlier
value. -/
def setAttr (attrs : List Attr) (k v : String) : List Attr :=
  if attrs.any (fun a => a.key == k) then
    attrs.map (fun a => if a.key == k then ⟨k, v⟩ else a)
  else attrs ++ [⟨k, v⟩]

/-- Modelled from the third-party library: the attribute scanner of
`html.parser` (BeautifulSoup backend, not part of this repository).
Consumes `name`, `name=value`, `name="value"`, `name='value'` pairs until
`>` (or the end of input on malformed markup), returning the attributes
and the rest of the input.  A bare attribute gets the empty-string value,
as BeautifulSoup normalises `None`-valued attributes. -/
def parseAttrs : Nat → List Attr → List Char → List Attr × List Char
  | 0, attrs, cs => (attrs, cs)
  | fuel + 1, attrs, cs =>
    match cs.dropWhile pyIsSpace with
    | [] => (attrs, [])
    | '>' :: rest => (attrs, rest)
    | '/' :: rest => parseAttrs fuel attrs rest
    | c :: rest =>
      let nameChar := fun d => !(pyIsSpace d) && d != '=' && d != '>' && d != '/'
      let nm := (c :: rest).takeWhile nameChar
      let afterName := (c :: rest).dropWhile nameChar
      if nm.isEmpty then parseAttrs fuel attrs rest
      else
        match afterName.dropWhile pyIsSpace with
        | '=' :: afterEq =>
          match afterEq.dropWhile pyIsSpace with
          | '"' :: vrest =>
            let v := vrest.takeWhile (fun d => d != '"')
            parseAttrs fuel (setAttr attrs (lowerStr nm) (String.mk v))
              ((vrest.dropWhile (fun d => d != '"')).drop 1)
          | '\x27' :: vrest =>
            let v := vrest.takeWhile (fun d => d != '\x27')
            parseAttrs fuel (setAttr attrs (lowerStr nm) (String.mk v))
              ((vrest.dropWhile (fun d => d != '\x27')).drop 1)
          | other =>
            let v := other.takeWhile (fun d => !(pyIsSpace d) && d != '>')
            parseAttrs fuel (setAttr attrs (lowerStr nm) (String.mk v))
              (other.dropWhile (fun d => !(pyIsSpace d) && d != '>'))
        | rest2 => parseAttrs fuel (setAttr attrs (lowerStr nm) "") rest2

/-- Modelled from the third-party library: the start-tag token stream of
`BeautifulSoup(html, "html.parser")`.  `<` followed by a letter opens a
start tag; `</`, `<!`, `<?` skip to the closing `>`; anything else is
text.  The fuel argument is instantiated with the input length, which
bounds the number of steps since every step consumes at least one
character. -/
def parseHtmlAux : Nat → List Char → List Element
  | 0, _ => []
  | _, [] => []
  | fuel + 1, c :: cs =>
    if c = '<' then
      match cs with
      | [] => []
      | d :: ds =>
        if d.isAlpha then
          let nm := (d :: ds).takeWhile isNameChar
          let afterName := (d :: ds).dropWhile isNameChar
          let (attrs, rest) := parseAttrs (afterName.length + 1) [] afterName
          ⟨lowerStr nm, attrs⟩ :: parseHtmlAux fuel rest
        else if d = '/' || d = '!' || d = '?' then
          parseHtmlAux fuel (((d :: ds).dropWhile (fun x => x != '>')).drop 1)
        else parseHtmlAux fuel (d :: ds)
    else parseHtmlAux fuel cs

/-- Modelled from the third-party library: the element list that
`BeautifulSoup(html, "html.parser")` exposes to `find_all`, in document
order. -/
def parseHtml (html : String) : List Element :=
  parseHtmlAux (html.data.length + 1) html.data

/-- `extract_image_urls_from_html` (app.py lines 42-74): parse the HTML
and run the four scanning loops, returning the collected set of image
URLs. -/
def extract_image_urls_from_html (html : String) : List String :=
  extractFromElements (parseHtml html)


/-- A parsed JSON value, the shape of the scrape-service response body
after `response.json()`. -/
inductive Json where
  | null : Json
  | bool (b : Bool) : Json
  | str (s : String) : Json
  | num (n : Int) : Json
  | arr (xs : List Json) : Json
  | obj (fields : List (String × Json)) : Json

/-- Python truthiness of a JSON value, as tested by `if not x`. -/
def pyTruthy : Json → Bool
  | .null => false
  | .bool b => b
  | .str s => s != ""
  | .num n => n != 0
  | .arr xs => !xs.isEmpty
  | .obj fs => !fs.isEmpty

/-- Truthiness of `dict.get(k)`: `None` (absent key) is falsy. -/
def pyTruthyOpt : Option Json → Bool
  | none => false
  | some j => pyTruthy j

/-- `dict.get(k)` on a JSON object field list. -/
def jlookup (fields : List (String × Json)) (k : String) : Option Json :=
  (fields.find? (fun p => p.fst == k)).map (fun p => p.snd)

/-- Truthiness of an optional string (`api_key`, `request.args.get`):
falsy when absent or empty. -/
def optNonEmpty : Option String → Bool
  | none => false
  | some s => s != ""

/-- The exceptions the pipeline can raise: `ValueError` for a missing
API key (app.py line 81), `requests.HTTPError` from `raise_for_status()`
carrying the upstream status and body (line 104), `AttributeError` /
`TypeError` when the JSON body has an unexpected shape. -/
inductive AppError where
  | valueError (msg : String) : AppError
  | httpError (status : Nat) (body : Json) : AppError
  | attrError (msg : String) : AppError
  | typeError (msg : String) : AppError

/-- `str(e)`, the message the handler places in the 500 payload. -/
def errMsg : AppError → String
  | .valueError m => m
  | .httpError status _ => "HTTP error " ++ toString status ++ " from scrape service"
  | .attrError m => m
  | .typeError m => m

/-- The scrape-service HTTP reply: status code and parsed JSON body. -/
structure HttpResp where
  status : Nat
  body : Json

/-- `fetch_images_from_url` (app.py lines 76-125) with the scrape-service
reply passed in as a value.  Steps in source order: the falsy-API-key
check raises `ValueError`; `raise_for_status()` raises for a 4xx or 5xx
status; a missing or falsy top-level `success` returns `[]`; `data`
defaults to the empty dict; a falsy `rawHtml` (missing or empty) returns
`[]`; otherwise the HTML goes to `extract_image_urls_from_html`. -/
def fetch_images_from_url (api_key : Option String) (resp : HttpResp) :
    Except AppError (List String) :=
  if !(optNonEmpty api_key) then
    .error (.valueError "FIRECRAWL_API_KEY is not set. Please check your .env file or environment variables.")
  else if 400 ≤ resp.status ∧ resp.status < 600 then
    .error (.httpError resp.status resp.body)
  else
    match resp.body with
    | .obj fields =>
      if !(pyTruthyOpt (jlookup fields "success")) then .ok []
      else
        match (jlookup fields "data").getD (.obj []) with
        | .obj dataFields =>
          let raw := (jlookup dataFields "rawHtml").getD (.str "")
          if !(pyTruthy raw) then .ok []
          else
            match raw with
            | .str rawHtml => .ok (extract_image_urls_from_html rawHtml)
            | _ => .error (.typeError "object of non-string type passed to BeautifulSoup")
        | _ => .error (.attrError "data object has no attribute get")
    | _ => .error (.attrError "response JSON has no attribute get")

/-- The remote vision call as an oracle: `.ok s` models a reply whose
stripped-ready content is `s`, `.error m` models any raised exception
(network, quota, malformed response). -/
abbrev VisionOracle := String → Except String String

/-- Structural prefix test on character lists (Python `startswith`). -/
def isPrefixOfL : List Char → List Char → Bool
  | [], _ => true
  | _ :: _, [] => false
  | a :: as, b :: bs => a == b && isPrefixOfL as bs

/-- Python `s.startswith(pre)`. -/
def strStartsWith (s pre : String) : Bool :=
  isPrefixOfL pre.data s.data

/-- Python `s.endswith(post)`. -/
def strEndsWith (s post : String) : Bool :=
  isPrefixOfL post.data.reverse s.data.reverse

/-- Python `s.lower()` (character-wise lower-casing). -/
def pyLower (s : String) : String :=
  String.mk (s.data.map Char.toLower)

/-- The extensions rejected locally (app.py line 131). -/
def unsupported_exts : List String := [".svg", ".ico", ".bmp", ".tiff"]

/-- The local filter of `describe_image_with_openai` (app.py lines
130-136): lower-cased URL ending in an unsupported extension, or starting
with `data:image/svg+xml` or `data:`. -/
def isUnsupportedUrl (image_url : String) : Bool :=
  unsupported_exts.any (fun ext => strEndsWith (pyLower image_url) ext)
    || strStartsWith image_url "data:image/svg+xml"
    || strStartsWith image_url "data:"

/-- `describe_image_with_openai` (app.py lines 128-156): the local filter
returns the unsupported-format sentinel without consulting the oracle;
an oracle reply is stripped (`content.strip()`); a raised exception is
caught and becomes the unavailable sentinel. -/
def describe_image_with_openai (vision : VisionOracle) (image_url : String) : String :=
  if isUnsupportedUrl image_url then "Not a supported image format"
  else
    match vision image_url with
    | .ok content => String.mk (pyStripL content.data)
    | .error _ => "Description unavailable"

/-- The HTTP response the Flask handler produces: status and JSON body. -/
structure HttpOut where
  status : Nat
  body : Json

/-- One annotated entry of the response payload (app.py line 170). -/
def annotatedEntry (vision : VisionOracle) (img_url : String) : Json :=
  .obj [("url", .str img_url), ("description", .str (describe_image_with_openai vision img_url))]

/-- The `get_images` route handler (app.py lines 158-174): a falsy `url`
query parameter yields 400; any exception from the fetch step is caught
and yields 500 with the stringified error; otherwise the extracted list
is truncated to its first two elements, each retained image is annotated
sequentially, and the handler returns 200 with the annotation list. -/
def get_images (api_key : Option String) (urlParam : Option String)
    (resp : HttpResp) (vision : VisionOracle) : HttpOut :=
  if !(optNonEmpty urlParam) then
    ⟨400, .obj [("error", .str "Missing \x27url\x27 parameter")]⟩
  else
    match fetch_images_from_url api_key resp with
    | .error e => ⟨500, .obj [("error", .str (errMsg e))]⟩
    | .ok image_urls =>
      ⟨200, .obj [("images", .arr ((image_urls.take 2).map (annotatedEntry vision)))]⟩


/-- Membership after a set insertion. -/
theorem mem_addUrl {acc : List String} {u v : String} :
    v ∈ addUrl acc u ↔ v ∈ acc ∨ v = u := by
  unfold addUrl
  split
  · rename_i hmem
    constructor
    · exact fun h => Or.inl h
    · rintro (h | rfl)
      · exact h
      · exact hmem
  · simp [List.mem_append]

/-- Set insertion preserves distinctness. -/
theorem addUrl_nodup {acc : List String} {u : String} (h : acc.Nodup) :
    (addUrl acc u).Nodup := by
  unfold addUrl
  split
  · exact h
  · rename_i hmem
    simp [List.nodup_append, h, hmem]

/-- Folding a distinctness-preserving step preserves distinctness. -/
theorem foldl_nodup_of_step {α : Type} (f : List String → α → List String)
    (hf : ∀ acc x, acc.Nodup → (f acc x).Nodup) :
    ∀ (l : List α) (acc : List String), acc.Nodup → (l.foldl f acc).Nodup := by
  intro l
  induction l with
  | nil => intro acc h; simpa using h
  | cons x xs ih =>
    intro acc h
    rw [List.foldl_cons]
    exact ih (f acc x) (hf acc x h)

/-- Folding set insertions over a list preserves distinctness. -/
theorem foldl_addUrl_nodup {l : List String} {acc : List String}
    (h : acc.Nodup) : (l.foldl addUrl acc).Nodup :=
  foldl_nodup_of_step addUrl (fun _ _ hh => addUrl_nodup hh) l acc h

/-- Membership in a fold of set insertions. -/
theorem mem_foldl_addUrl :
    ∀ (l : List String) (acc : List String) (v : String),
      v ∈ l.foldl addUrl acc ↔ v ∈ acc ∨ v ∈ l := by
  intro l
  induction l with
  | nil => simp
  | cons x xs ih =>
    intro acc v
    rw [List.foldl_cons, ih, mem_addUrl]
    simp
    tauto

theorem imgStep_nodup {acc : List String} {e : Element} (h : acc.Nodup) :
    (imgStep acc e).Nodup := by
  unfold imgStep
  split
  · split
    · split
      · exact h
      · exact addUrl_nodup h
    · exact h
  · exact h

theorem sourceStep_nodup {acc : List String} {e : Element} (h : acc.Nodup) :
    (sourceStep acc e).Nodup := by
  unfold sourceStep
  split
  · split
    · split
      · exact h
      · exact foldl_addUrl_nodup h
    · exact h
  · exact h

theorem styleStep_nodup {acc : List String} {e : Element} (h : acc.Nodup) :
    (styleStep acc e).Nodup := by
  unfold styleStep
  split
  · exact foldl_addUrl_nodup h
  · exact h

theorem metaStep_nodup {acc : List String} {e : Element} (h : acc.Nodup) :
    (metaStep acc e).Nodup := by
  unfold metaStep
  split
  · split
    · split
      · exact h
      · exact addUrl_nodup h
    · exact h
  · exact h

/-- The full four-phase extraction preserves distinctness. -/
theorem extractFromElements_nodup (elems : List Element) :
    (extractFromElements elems).Nodup := by
  unfold extractFromElements metaPhase stylePhase sourcePhase imgPhase
  apply foldl_nodup_of_step _ (fun _ _ h => metaStep_nodup h)
  apply foldl_nodup_of_step _ (fun _ _ h => styleStep_nodup h)
  apply foldl_nodup_of_step _ (fun _ _ h => sourceStep_nodup h)
  apply foldl_nodup_of_step _ (fun _ _ h => imgStep_nodup h)
  exact List.nodup_nil

/-- Claim C2, counterexample: on the input `<source srcset=",">` the
extractor returns a collection containing the empty string, so not every
element is a non-empty string. -/
theorem c2_counterexample :
    ¬ (∀ u ∈ extract_image_urls_from_html "<source srcset=\",\">", u ≠ "") := by
  intro h
  exact h "" (by decide) rfl

/-- Claim C2, amended: for every HTML string input the collection
returned by the extractor contains no duplicate URLs (exact string
equality).  The non-emptiness part of the original claim is dropped:
srcset entries and style `url()` occurrences can contribute the empty
string. -/
theorem c2_no_duplicates (html : String) :
    (extract_image_urls_from_html html).Nodup :=
  extractFromElements_nodup (parseHtml html)

/-- Claim C3: the extractor is a total function of the input string (it
is a plain Lean function, so termination and exception-freedom hold by
construction); on the empty string it returns the empty set, and it also
returns results (here empty) on malformed and non-HTML inputs. -/
theorem c3_total_empty :
    extract_image_urls_from_html "" = []
      ∧ extract_image_urls_from_html "<img src=" = []
      ∧ extract_image_urls_from_html "plain text, no markup at all" = [] := by
  refine ⟨by decide, by decide, by decide⟩

/-- Claim C4, counterexample: in `srcset="x.jpg\t1x"` the URL and the
descriptor are separated by a tab, yet the extractor keeps the whole
entry: the split of app.py line 57 is on the space character only, not on
every whitespace character. -/
theorem c4_counterexample :
    extract_image_urls_from_html "<source srcset=\"x.jpg\t1x\">" = ["x.jpg\t1x"]
      ∧ "x.jpg" ∉ extract_image_urls_from_html "<source srcset=\"x.jpg\t1x\">" := by
  refine ⟨by decide, by decide⟩

/-- Claim C4, amended: for every source element with a non-empty srcset
attribute, the extractor splits the value on commas and each entry
contributes (regardless of descriptor) the prefix of the stripped entry
before the first SPACE character (U+0020 only; a tab or newline inside an
entry is not treated as a separator); `srcset="x.jpg 1x, y.jpg 2x"`
contributes exactly x.jpg and y.jpg. -/
theorem c4_srcset_split (s : String) (hs : s ≠ "") :
    (∀ u, u ∈ extractFromElements [⟨"source", [⟨"srcset", s⟩]⟩] ↔
      ∃ part ∈ splitChar ',' s.data, u = srcsetEntryUrl part)
    ∧ extract_image_urls_from_html "<source srcset=\"x.jpg 1x, y.jpg 2x\">"
        = ["x.jpg", "y.jpg"] := by
  constructor
  · intro u
    have he : extractFromElements [⟨"source", [⟨"srcset", s⟩]⟩]
        = (srcsetUrls s).foldl addUrl [] := by
      simp [extractFromElements, imgPhase, sourcePhase, stylePhase, metaPhase,
        imgStep, sourceStep, styleStep, metaStep, Element.getAttr, List.find?,
        imgChosenSrc, hs]
    rw [he, mem_foldl_addUrl]
    simp [srcsetUrls, List.mem_map, eq_comm]
  · decide

/-- Claim C4, witness: instantiating the amended theorem at the sample
srcset value shows `x.jpg` is among the extracted URLs. -/
theorem c4_witness :
    "x.jpg" ∈ extractFromElements [⟨"source", [⟨"srcset", "x.jpg 1x, y.jpg 2x"⟩]⟩] := by
  exact ((c4_srcset_split "x.jpg 1x, y.jpg 2x" (by decide)).1 "x.jpg").mpr
    ⟨"x.jpg 1x".data, by decide, by decide⟩

/-- Claim C5: an `img` element (not also carrying a style attribute,
which would engage the independent style scan) contributes at most one
URL; a present non-empty `src` wins over `data-src`; when `src` is
absent or empty, a present non-empty `data-src` is contributed instead;
and `<img src="a.png" data-src="b.png">` contributes exactly `a.png`. -/
theorem c5_img_precedence (e : Element) (htag : e.tag = "img")
    (hstyle : e.getAttr "style" = none) :
    (extractFromElements [e]).length ≤ 1
    ∧ (∀ s, e.getAttr "src" = some s → s ≠ "" → extractFromElements [e] = [s])
    ∧ (∀ d, (e.getAttr "src" = none ∨ e.getAttr "src" = some "") →
        e.getAttr "data-src" = some d → d ≠ "" → extractFromElements [e] = [d])
    ∧ extract_image_urls_from_html "<img src=\"a.png\" data-src=\"b.png\">"
        = ["a.png"] := by
  have he : extractFromElements [e] = imgStep [] e := by
    simp [extractFromElements, imgPhase, sourcePhase, stylePhase, metaPhase,
      sourceStep, styleStep, metaStep, hstyle, htag]
  refine ⟨?_, ?_, ?_, by decide⟩
  · rw [he]
    unfold imgStep
    rw [if_pos htag]
    cases hc : imgChosenSrc e with
    | none => simp
    | some s =>
      by_cases hs : s = ""
      · simp [hs]
      · simp [hs, addUrl]
  · intro s hsrc hs
    rw [he]
    unfold imgStep
    rw [if_pos htag]
    have hc : imgChosenSrc e = some s := by
      unfold imgChosenSrc
      rw [hsrc]
      dsimp only
      rw [if_neg hs]
    rw [hc]
    dsimp only
    rw [if_neg hs]
    simp [addUrl]
  · intro d hsrc hdata hd
    rw [he]
    unfold imgStep
    rw [if_pos htag]
    have hc : imgChosenSrc e = some d := by
      unfold imgChosenSrc
      rcases hsrc with hsrc | hsrc
      · rw [hsrc]
        exact hdata
      · rw [hsrc]
        dsimp only
        rw [if_pos rfl]
        exact hdata
    rw [hc]
    dsimp only
    rw [if_neg hd]
    simp [addUrl]

/-- Claim C5, witness: the precedence theorem applied to the concrete
element parsed from `<img src="a.png" data-src="b.png">` (the `src`
branch) and to the element parsed from `<img data-src="b.png">` (the
`data-src` fallback branch). -/
theorem c5_witness :
    (extractFromElements [⟨"img", [⟨"src", "a.png"⟩, ⟨"data-src", "b.png"⟩]⟩]).length ≤ 1
    ∧ extractFromElements [⟨"img", [⟨"src", "a.png"⟩, ⟨"data-src", "b.png"⟩]⟩] = ["a.png"]
    ∧ extractFromElements [⟨"img", [⟨"data-src", "b.png"⟩]⟩] = ["b.png"]
    ∧ extractFromElements [⟨"img", [⟨"src", ""⟩, ⟨"data-src", "b.png"⟩]⟩] = ["b.png"] := by
  have h := c5_img_precedence ⟨"img", [⟨"src", "a.png"⟩, ⟨"data-src", "b.png"⟩]⟩ rfl (by decide)
  have h2 := c5_img_precedence ⟨"img", [⟨"data-src", "b.png"⟩]⟩ rfl (by decide)
  have h3 := c5_img_precedence ⟨"img", [⟨"src", ""⟩, ⟨"data-src", "b.png"⟩]⟩ rfl (by decide)
  exact ⟨h.1, h.2.1 "a.png" (by decide) (by decide),
    h2.2.2.1 "b.png" (Or.inl (by decide)) (by decide) (by decide),
    h3.2.2.1 "b.png" (Or.inr (by decide)) (by decide) (by decide)⟩

/-- Claim C6: a URL whose lower-cased form ends in `.svg`, `.ico`,
`.bmp` or `.tiff`, or that starts with the `data:` scheme, gets the
unsupported-format sentinel, and the result does not depend on the
vision oracle (no remote call is issued). -/
theorem c6_local_filter (image_url : String) (v1 v2 : VisionOracle)
    (h : strEndsWith (pyLower image_url) ".svg" = true
      ∨ strEndsWith (pyLower image_url) ".ico" = true
      ∨ strEndsWith (pyLower image_url) ".bmp" = true
      ∨ strEndsWith (pyLower image_url) ".tiff" = true
      ∨ strStartsWith image_url "data:" = true) :
    describe_image_with_openai v1 image_url = "Not a supported image format"
    ∧ describe_image_with_openai v1 image_url
        = describe_image_with_openai v2 image_url := by
  have hu : isUnsupportedUrl image_url = true := by
    unfold isUnsupportedUrl unsupported_exts
    rcases h with h | h | h | h | h <;> simp [h]
  constructor
  · unfold describe_image_with_openai
    rw [hu]
    rfl
  · unfold describe_image_with_openai
    rw [hu]
    simp

/-- Claim C6, witness: the filter theorem applied to `logo.SVG` with two
oracles that disagree everywhere. -/
theorem c6_witness :
    describe_image_with_openai (fun _ => .ok "a cat") "logo.SVG"
        = "Not a supported image format"
    ∧ describe_image_with_openai (fun _ => .ok "a cat") "logo.SVG"
        = describe_image_with_openai (fun _ => .error "network down") "logo.SVG" :=
  c6_local_filter "logo.SVG" (fun _ => .ok "a cat") (fun _ => .error "network down")
    (Or.inl (by decide))

/-- Claim C7: when the vision call raises, the annotator returns exactly
the unavailable sentinel, and the request as a whole still returns 200
with every retained image annotated by the same per-image rule (failures
never propagate). -/
theorem c7_annotation_degrades (v : VisionOracle) (image_url msg : String)
    (hfilter : isUnsupportedUrl image_url = false)
    (hraise : v image_url = .error msg)
    (api_key : Option String) (u : String) (hu : u ≠ "")
    (resp : HttpResp) (urls : List String)
    (hfetch : fetch_images_from_url api_key resp = .ok urls) :
    describe_image_with_openai v image_url = "Description unavailable"
    ∧ get_images api_key (some u) resp v
        = ⟨200, .obj [("images", .arr ((urls.take 2).map (annotatedEntry v)))]⟩ := by
  constructor
  · unfold describe_image_with_openai
    rw [hfilter]
    simp [hraise]
  · unfold get_images
    simp [optNonEmpty, hu, hfetch]

/-- Claim C7, witness: a page with two images where the oracle throws on
the second: the response is 200, the first image is described normally
and the second carries the unavailable sentinel. -/
theorem c7_witness :
    describe_image_with_openai
        (fun x => if x = "b.png" then .error "boom" else .ok "a cat") "b.png"
      = "Description unavailable"
    ∧ get_images (some "k") (some "u")
        ⟨200, .obj [("success", .bool true),
          ("data", .obj [("rawHtml", .str "<img src=\"a.png\"><img data-src=\"b.png\">")])]⟩
        (fun x => if x = "b.png" then .error "boom" else .ok "a cat")
      = ⟨200, .obj [("images", .arr
          ((["a.png", "b.png"].take 2).map (annotatedEntry
            (fun x => if x = "b.png" then .error "boom" else .ok "a cat"))))]⟩ :=
  c7_annotation_degrades
    (fun x => if x = "b.png" then .error "boom" else .ok "a cat") "b.png" "boom"
    (by decide) (by simp) (some "k") "u" (by decide)
    ⟨200, .obj [("success", .bool true),
      ("data", .obj [("rawHtml", .str "<img src=\"a.png\"><img data-src=\"b.png\">")])]⟩
    ["a.png", "b.png"] rfl

/-- Claim C8: the handler truncates the extracted list to its first two
elements before annotation, annotates each retained image once in
sequence, and the images array of the 200 response has length at most
two. -/
theorem c8_at_most_two (api_key : Option String) (u : String) (hu : u ≠ "")
    (resp : HttpResp) (v : VisionOracle) (urls : List String)
    (hfetch : fetch_images_from_url api_key resp = .ok urls) :
    get_images api_key (some u) resp v
        = ⟨200, .obj [("images", .arr ((urls.take 2).map (annotatedEntry v)))]⟩
    ∧ ((urls.take 2).map (annotatedEntry v)).length ≤ 2 := by
  constructor
  · unfold get_images
    simp [optNonEmpty, hu, hfetch]
  · simp [List.length_map, List.length_take]

/-- Claim C8, witness: a page with three images; only the first two are
annotated and the images array has length two. -/
theorem c8_witness :
    get_images (some "k") (some "u")
        ⟨200, .obj [("success", .bool true),
          ("data", .obj [("rawHtml",
            .str "<img src=\"a.png\"><img src=\"b.png\"><img src=\"c.png\">")])]⟩
        (fun _ => .ok "a cat")
      = ⟨200, .obj [("images", .arr
          ((["a.png", "b.png", "c.png"].take 2).map (annotatedEntry (fun _ => .ok "a cat"))))]⟩
    ∧ ((["a.png", "b.png", "c.png"].take 2).map
        (annotatedEntry (fun _ => .ok "a cat"))).length ≤ 2 :=
  c8_at_most_two (some "k") "u" (by decide)
    ⟨200, .obj [("success", .bool true),
      ("data", .obj [("rawHtml",
        .str "<img src=\"a.png\"><img src=\"b.png\"><img src=\"c.png\">")])]⟩
    (fun _ => .ok "a cat") ["a.png", "b.png", "c.png"] rfl

/-- Claim C9: an error HTTP status from the scrape service (4xx or 5xx,
the statuses `raise_for_status()` treats as failures) makes the fetch
step raise an error carrying the upstream status and body; the handler
then responds 500 with a JSON body whose `error` field holds the
stringified error, and the response does not depend on the vision oracle
(no annotation call is made). -/
theorem c9_scrape_failure (api_key : Option String)
    (hkey : optNonEmpty api_key = true) (u : String) (hu : u ≠ "")
    (status : Nat) (h4 : 400 ≤ status) (h6 : status < 600)
    (body : Json) (v1 v2 : VisionOracle) :
    fetch_images_from_url api_key ⟨status, body⟩
        = .error (.httpError status body)
    ∧ get_images api_key (some u) ⟨status, body⟩ v1
        = ⟨500, .obj [("error", .str (errMsg (.httpError status body)))]⟩
    ∧ get_images api_key (some u) ⟨status, body⟩ v1
        = get_images api_key (some u) ⟨status, body⟩ v2 := by
  have hf : fetch_images_from_url api_key ⟨status, body⟩
      = .error (.httpError status body) := by
    unfold fetch_images_from_url
    rw [hkey]
    simp [h4, h6]
  have hg : ∀ v : VisionOracle, get_images api_key (some u) ⟨status, body⟩ v
      = ⟨500, .obj [("error", .str (errMsg (.httpError status body)))]⟩ := by
    intro v
    unfold get_images
    simp [optNonEmpty, hu, hf]
  exact ⟨hf, hg v1, (hg v1).trans (hg v2).symm⟩

/-- Claim C9, witness: a 503 reply with a concrete body and two oracles
that disagree everywhere. -/
theorem c9_witness :
    fetch_images_from_url (some "k") ⟨503, .str "Service Unavailable"⟩
        = .error (.httpError 503 (.str "Service Unavailable"))
    ∧ get_images (some "k") (some "u") ⟨503, .str "Service Unavailable"⟩
        (fun _ => .ok "a cat")
        = ⟨500, .obj [("error",
            .str (errMsg (.httpError 503 (.str "Service Unavailable"))))]⟩
    ∧ get_images (some "k") (some "u") ⟨503, .str "Service Unavailable"⟩
        (fun _ => .ok "a cat")
        = get_images (some "k") (some "u") ⟨503, .str "Service Unavailable"⟩
            (fun _ => .error "down") :=
  c9_scrape_failure (some "k") (by decide) "u" (by decide) 503 (by decide) (by decide)
    (.str "Service Unavailable") (fun _ => .ok "a cat") (fun _ => .error "down")

/-- Claim C10: a 200 reply whose JSON object body lacks a truthy
top-level `success` field (every flat-shaped response included) makes
`fetch_images_from_url` return the empty list without raising, so the
endpoint responds 200 with an empty images array — the same response as
for a successfully scraped page with no images. -/
theorem c10_silent_empty (api_key : Option String)
    (hkey : optNonEmpty api_key = true) (u : String) (hu : u ≠ "")
    (fields : List (String × Json))
    (hsucc : pyTruthyOpt (jlookup fields "success") = false)
    (v : VisionOracle) :
    fetch_images_from_url api_key ⟨200, .obj fields⟩ = .ok []
    ∧ get_images api_key (some u) ⟨200, .obj fields⟩ v
        = ⟨200, .obj [("images", .arr [])]⟩
    ∧ get_images api_key (some u) ⟨200, .obj fields⟩ v
        = get_images api_key (some u)
            ⟨200, .obj [("success", .bool true),
              ("data", .obj [("rawHtml", .str "")])]⟩ v := by
  have hf : fetch_images_from_url api_key ⟨200, .obj fields⟩ = .ok [] := by
    unfold fetch_images_from_url
    rw [hkey]
    simp [hsucc]
  have hg : get_images api_key (some u) ⟨200, .obj fields⟩ v
      = ⟨200, .obj [("images", .arr [])]⟩ := by
    unfold get_images
    simp [optNonEmpty, hu, hf]
  have hf2 : fetch_images_from_url api_key
      ⟨200, .obj [("success", .bool true), ("data", .obj [("rawHtml", .str "")])]⟩
      = .ok [] := by
    unfold fetch_images_from_url
    rw [hkey]
    simp [jlookup, pyTruthyOpt, pyTruthy]
  have hg2 : get_images api_key (some u)
      ⟨200, .obj [("success", .bool true), ("data", .obj [("rawHtml", .str "")])]⟩ v
      = ⟨200, .obj [("images", .arr [])]⟩ := by
    unfold get_images
    simp [optNonEmpty, hu, hf2]
  exact ⟨hf, hg, hg.trans hg2.symm⟩

/-- Claim C10, witness: a flat-shaped 200 reply whose body carries HTML
with an image still produces the empty images array. -/
theorem c10_witness :
    fetch_images_from_url (some "k")
        ⟨200, .obj [("rawHtml", .str "<img src=\"a.png\">")]⟩ = .ok []
    ∧ get_images (some "k") (some "u")
        ⟨200, .obj [("rawHtml", .str "<img src=\"a.png\">")]⟩ (fun _ => .ok "a cat")
        = ⟨200, .obj [("images", .arr [])]⟩
    ∧ get_images (some "k") (some "u")
        ⟨200, .obj [("rawHtml", .str "<img src=\"a.png\">")]⟩ (fun _ => .ok "a cat")
        = get_images (some "k") (some "u")
            ⟨200, .obj [("success", .bool true),
              ("data", .obj [("rawHtml", .str "")])]⟩ (fun _ => .ok "a cat") :=
  c10_silent_empty (some "k") (by decide) "u" (by decide)
    [("rawHtml", .str "<img src=\"a.png\">")] (by decide) (fun _ => .ok "a cat")

/-- Claim C1, counterexample: with the same HTML carried by the two
documented shapes, the flat response yields no images while the enveloped
response yields the image, so the flat shape is not supported and the two
shapes do not produce the same images. -/
theorem c1_counterexample :
    fetch_images_from_url (some "k")
        ⟨200, .obj [("rawHtml", .str "<img src=\"a.png\">")]⟩ = .ok []
    ∧ fetch_images_from_url (some "k")
        ⟨200, .obj [("success", .bool true),
          ("data", .obj [("rawHtml", .str "<img src=\"a.png\">")])]⟩
        = .ok ["a.png"]
    ∧ ([] : List String) ≠ ["a.png"] :=
  ⟨rfl, rfl, by decide⟩

/-- Claim C1, amended: only the enveloped shape is supported.  An
enveloped 200 response with a truthy `success` flag and non-empty
`data.rawHtml` hands that HTML to extraction; a flat 200 response whose
top-level `rawHtml` holds the same HTML lacks a truthy `success` flag and
yields the empty list, the HTML never reaching extraction. -/
theorem c1_envelope_only (api_key : Option String)
    (hkey : optNonEmpty api_key = true) (h : String) (hh : h ≠ "") :
    fetch_images_from_url api_key
        ⟨200, .obj [("success", .bool true), ("data", .obj [("rawHtml", .str h)])]⟩
        = .ok (extract_image_urls_from_html h)
    ∧ fetch_images_from_url api_key ⟨200, .obj [("rawHtml", .str h)]⟩ = .ok [] := by
  constructor
  · unfold fetch_images_from_url
    rw [hkey]
    simp [jlookup, pyTruthyOpt, pyTruthy, hh]
  · unfold fetch_images_from_url
    rw [hkey]
    simp [jlookup, pyTruthyOpt, pyTruthy]

/-- Claim C1, witness: the amended theorem applied at a concrete API key
and HTML document. -/
theorem c1_witness :
    fetch_images_from_url (some "k")
        ⟨200, .obj [("success", .bool true),
          ("data", .obj [("rawHtml", .str "<img src=\"b.png\">")])]⟩
        = .ok (extract_image_urls_from_html "<img src=\"b.png\">")
    ∧ fetch_images_from_url (some "k")
        ⟨200, .obj [("rawHtml", .str "<img src=\"b.png\">")]⟩ = .ok [] :=
  c1_envelope_only (some "k") (by decide) "<img src=\"b.png\">" (by decide)

/-- Claim C2, witness: the amended no-duplicates theorem applied at a
concrete document. -/
theorem c2_witness :
    (extract_image_urls_from_html "<img src=\"a.png\"><img src=\"a.png\">").Nodup :=
  c2_no_duplicates "<img src=\"a.png\"><img src=\"a.png\">"
